import Mathlib

/-!
Shallow embedding of the tariff-rate resolution and price decomposition
engine of the amazon-tariff-checker browser extension, together with
theorems settling the specification claims.

Conventions of the embedding:
* JavaScript strings are modelled as lists of Unicode code points
  (`List Nat`); `toLowerCase`, `trim` and `includes` are modelled over
  that representation (ASCII case mapping, which is exact on the ASCII
  data appearing in the rule tables).
* JavaScript numbers are modelled as exact rationals (`ℚ`); every
  numeric literal in the source is an exact decimal, so the rule-table
  arithmetic is represented exactly.
* The DOM extraction and modal rendering code is presentation glue and
  is not embedded; the embedded functions are the pure calculation
  cores: `fallbackCalculation` of scripts/content.js (namespace
  `Content`), `fallbackCalculation` of scripts/content-injection.js
  (namespace `Injection`), and the rate table, country normalization
  and cache logic of the API connector file (namespace `Connector`).
-/

namespace Js

/-- JavaScript strings, modelled as lists of code points. -/
abbrev JsStr := List Nat

/-- The code points of a Lean string literal. -/
def str (s : String) : JsStr := s.toList.map Char.toNat

/-- ASCII lower-casing of one code point (the case mapping performed by
JS `toLowerCase` on the ASCII data used by the rule tables). -/
def lowerCh (c : Nat) : Nat := if 65 ≤ c ∧ c ≤ 90 then c + 32 else c

/-- JS `String.prototype.toLowerCase`. -/
def toLower (s : JsStr) : JsStr := s.map lowerCh

/-- Whitespace test used by `trim`. -/
def isWs (c : Nat) : Bool := c == 32 || c == 9 || c == 10 || c == 11 || c == 12 || c == 13

/-- Remove leading whitespace. -/
def trimL (s : JsStr) : JsStr := s.dropWhile fun c => isWs c

/-- JS `String.prototype.trim`: leading and trailing whitespace removed. -/
def trim (s : JsStr) : JsStr := ((trimL s).reverse.dropWhile fun c => isWs c).reverse

/-- Does `s` start with the pattern `p`? -/
def startsWith : JsStr → JsStr → Bool
  | _, [] => true
  | [], _ :: _ => false
  | c :: s, p :: ps => c == p && startsWith s ps

/-- JS `String.prototype.includes`: substring containment. -/
def includes : JsStr → JsStr → Bool
  | [], p => p.isEmpty
  | c :: s, p => startsWith (c :: s) p || includes s p

/-- First-match lookup in an association table keyed by strings
(JS object-literal property lookup restricted to own properties). -/
def lookupTable {α : Type} : List (JsStr × α) → JsStr → Option α
  | [], _ => none
  | (k, v) :: m, key => if key = k then some v else lookupTable m key

end Js

open Js

/-- The price decomposition shared by the two fallback calculators
(scripts/content.js lines 377-379 and the API connector file lines
782-784): `preTariffPrice = price / (1 + tariffRate)` and
`tariffAmount = price - preTariffPrice`. -/
def decomposePercentage (price tariffRate : ℚ) : ℚ × ℚ :=
  let preTariffPrice := price / (1 + tariffRate)
  (preTariffPrice, price - preTariffPrice)

/-- Decimal digit string of a natural number. -/
def natDigits (n : Nat) : JsStr := (Nat.toDigits 10 n).map Char.toNat

/-- JS `Number.prototype.toFixed(1)` for the nonnegative rates it is
applied to in the source: nearest multiple of one tenth, ties rounded
up, rendered with one fractional digit (code point 46 is the dot). -/
def toFixed1 (q : ℚ) : JsStr :=
  let m := (q * 10 + 1 / 2 : ℚ).floor
  natDigits (m.toNat / 10) ++ [46] ++ natDigits (m.toNat % 10)

/-- The product record consumed by the calculators: seller-declared
country of origin, listed price and breadcrumb category (the title is
not read by any embedded function). -/
structure ProductData where
  countryOfOrigin : JsStr
  price : ℚ
  category : JsStr

/-- Result shape returned by `fallbackCalculation` of scripts/content.js
and by `fallbackTariffCheck` of the API connector file. -/
structure FallbackResult where
  isSubjectToTariff : Bool
  tariffRate : ℚ
  preTariffPrice : ℚ
  tariffAmount : ℚ
  message : JsStr
  isFallback : Bool

namespace Connector

/-- The alias table `countryMap` of `normalizeCountryName` in the API
connector file (the key written in the source with an apostrophe is
built here with its code point 39). -/
def countryMap : List (JsStr × JsStr) :=
  [ (str "cn", str "china"),
    (str "prc", str "china"),
    (str "people" ++ [39] ++ str "s republic of china", str "china"),
    (str "usa", str "united states"),
    (str "us", str "united states"),
    (str "u.s.", str "united states"),
    (str "u.s.a.", str "united states"),
    (str "america", str "united states"),
    (str "uk", str "united kingdom"),
    (str "great britain", str "united kingdom"),
    (str "deutschland", str "germany"),
    (str "vn", str "vietnam"),
    (str "kr", str "south korea"),
    (str "dprk", str "north korea"),
    (str "roc", str "taiwan"),
    (str "taipei", str "taiwan"),
    (str "mx", str "mexico"),
    (str "ca", str "canada"),
    (str "jp", str "japan"),
    (str "sk", str "south korea"),
    (str "republic of korea", str "south korea"),
    (str "my", str "malaysia"),
    (str "th", str "thailand"),
    (str "id", str "indonesia"),
    (str "in", str "india"),
    (str "br", str "brazil"),
    (str "de", str "germany"),
    (str "fr", str "france"),
    (str "it", str "italy"),
    (str "es", str "spain"),
    (str "se", str "sweden"),
    (str "pl", str "poland"),
    (str "tr", str "turkey"),
    (str "turkiye", str "turkey"),
    (str "ru", str "russia"),
    (str "russian federation", str "russia"),
    (str "viet nam", str "vietnam") ]

/-- `normalizeCountryName` of the API connector file: the empty (falsy)
input is returned unchanged as the empty string, otherwise the input is
lower-cased, trimmed and looked up in the alias table, falling back to
the trimmed lower-cased input itself. -/
def normalizeCountryName (countryName : JsStr) : JsStr :=
  if countryName = [] then []
  else
    let normalized := Js.trim (Js.toLower countryName)
    match Js.lookupTable countryMap normalized with
    | some v => v
    | none => normalized

/-- The Amazon-category to HTS-chapter table of `getCategoryHTSCode`. -/
def categoryMap : List (JsStr × JsStr) :=
  [ (str "electronics", str "85"),
    (str "headphones", str "8518.30"),
    (str "computers", str "8471"),
    (str "laptops", str "8471.30"),
    (str "tablets", str "8471.30"),
    (str "cell phones", str "8517.12"),
    (str "smartphone", str "8517.12"),
    (str "tvs", str "8528.72"),
    (str "television", str "8528.72"),
    (str "monitors", str "8528.52"),
    (str "printers", str "8443.31"),
    (str "cameras", str "8525.80"),
    (str "clothing", str "61"),
    (str "apparel", str "61"),
    (str "shirts", str "6105"),
    (str "t-shirts", str "6109.10"),
    (str "pants", str "6203"),
    (str "socks", str "6115"),
    (str "shoes", str "64"),
    (str "footwear", str "64"),
    (str "boots", str "6403"),
    (str "sneakers", str "6404"),
    (str "furniture", str "94"),
    (str "chairs", str "9401"),
    (str "tables", str "9403"),
    (str "lamps", str "9405"),
    (str "kitchenware", str "7323"),
    (str "cookware", str "7323"),
    (str "cutlery", str "8211"),
    (str "bedding", str "6302"),
    (str "towels", str "6302"),
    (str "toys", str "95"),
    (str "games", str "9504"),
    (str "sporting goods", str "9506"),
    (str "books", str "4901"),
    (str "jewelry", str "7113"),
    (str "watches", str "9102"),
    (str "cosmetics", str "3304"),
    (str "beauty", str "33"),
    (str "perfume", str "3303"),
    (str "tools", str "8205"),
    (str "hardware", str "8302"),
    (str "automotive", str "8708"),
    (str "pet supplies", str "4201"),
    (str "luggage", str "4202"),
    (str "bags", str "4202"),
    (str "food", str "21"),
    (str "coffee", str "0901"),
    (str "tea", str "0902") ]

/-- First table entry whose key is a substring of `s` (the partial-match
pass of `getCategoryHTSCode`). -/
def findSubstrMatch : List (JsStr × JsStr) → JsStr → Option JsStr
  | [], _ => none
  | (k, v) :: m, s => if Js.includes s k then some v else findSubstrMatch m s

/-- `getCategoryHTSCode` of the API connector file: falsy category gives
the sentinel code 9999; otherwise exact match, then substring match,
then the sentinel. -/
def getCategoryHTSCode (category : JsStr) : JsStr :=
  if category = [] then str "9999"
  else
    let normalized := Js.trim (Js.toLower category)
    match Js.lookupTable categoryMap normalized with
    | some v => v
    | none =>
      match findSubstrMatch categoryMap normalized with
      | some v => v
      | none => str "9999"

/-- The per-chapter base rate table of `getBaseTariffRate`. -/
def chapterRates : List (JsStr × ℚ) :=
  [ (str "61", 0.16),
    (str "62", 0.16),
    (str "64", 0.20),
    (str "42", 0.08),
    (str "85", 0.02),
    (str "84", 0.02),
    (str "90", 0.02),
    (str "95", 0.04),
    (str "71", 0.07),
    (str "39", 0.05),
    (str "94", 0.03),
    (str "73", 0.02),
    (str "48", 0.00),
    (str "49", 0.00),
    (str "82", 0.04),
    (str "87", 0.03),
    (str "33", 0.02),
    (str "69", 0.06),
    (str "70", 0.05),
    (str "83", 0.05),
    (str "96", 0.04),
    (str "44", 0.03),
    (str "63", 0.07),
    (str "65", 0.06),
    (str "91", 0.03),
    (str "92", 0.04),
    (str "09", 0.00),
    (str "21", 0.02),
    (str "22", 0.03) ]

/-- `getBaseTariffRate`: rate of the two-digit HTS chapter, defaulting
to 3 percent. -/
def getBaseTariffRate (htsCode : JsStr) : ℚ :=
  let chapter := htsCode.take 2
  match Js.lookupTable chapterRates chapter with
  | some r => r
  | none => 0.03

/-- The free-trade-agreement country list of `adjustTariffForCountry`. -/
def ftaCountries : List JsStr :=
  [ str "canada", str "mexico", str "australia", str "bahrain", str "chile",
    str "colombia", str "israel", str "jordan", str "morocco", str "oman",
    str "panama", str "peru", str "singapore" ]

/-- `adjustTariffForCountry` of the API connector file: the ordered
country rule table of the simulated API path, matched by exact string
equality on the normalized country.  Returns (rate, message).  The
`baseRate` and HTS code parameters are accepted but, as in the source,
never used by any branch. -/
def adjustTariffForCountry (_baseRate : ℚ) (country _htsCode : JsStr) : ℚ × JsStr :=
  if country = str "china" then
    (0.54, str "This product from China is subject to a combined 54% tariff rate (34% reciprocal + 20% existing tariffs)")
  else if country = str "japan" then
    (0.10, str "This product from Japan is subject to a 10% baseline tariff rate under the April 2025 tariff policy (reduced from 24% for 90 days)")
  else if country = str "south korea" ∨ country = str "korea" then
    (0.25, str "This product from South Korea is subject to a 25% tariff rate under the April 2025 tariff policy")
  else if country = str "taiwan" then
    (0.32, str "This product from Taiwan is subject to a 32% tariff rate under the April 2025 tariff policy")
  else if country = str "european union" ∨ country = str "eu" ∨ country = str "germany" ∨
      country = str "france" ∨ country = str "italy" ∨ country = str "spain" then
    (0.20, str "This product from the European Union is subject to a 20% tariff rate under the April 2025 tariff policy")
  else if country = str "vietnam" then
    (0.46, str "This product from Vietnam is subject to a 46% tariff rate under the April 2025 tariff policy")
  else if country = str "india" then
    (0.40, str "This product from India is subject to a 40% tariff rate under the April 2025 tariff policy")
  else if country = str "indonesia" then
    (0.32, str "This product from Indonesia is subject to a 32% tariff rate under the April 2025 tariff policy")
  else if country = str "thailand" then
    (0.20, str "This product from Thailand is subject to a 20% tariff rate under the April 2025 tariff policy")
  else if country = str "malaysia" then
    (0.25, str "This product from Malaysia is subject to a 25% tariff rate under the April 2025 tariff policy")
  else if country = str "mexico" ∨ country = str "canada" then
    (0.25, str "This product from " ++ country ++ str " is subject to a 25% tariff under the 2025 USMCA revisions")
  else if ftaCountries.contains country then
    (0.10, str "Products from " ++ country ++ str " are subject to the universal 10% baseline tariff implemented in April 2025")
  else
    (0.10, str "Products from " ++ country ++ str " are subject to the universal 10% baseline tariff implemented in April 2025")

/-- The ordered country rule chain of `fallbackTariffCheck` in the API
connector file: returns (tariffRate, isSubjectToTariff, message). -/
def fallbackRules (country : JsStr) : ℚ × Bool × JsStr :=
  if country = str "china" then
    (0.54, true, str "Using fallback data: This product from China is subject to a combined 54% tariff rate (34% reciprocal + 20% existing tariffs)")
  else if country = str "japan" then
    (0.10, true, str "Using fallback data: This product from Japan is subject to a 10% baseline tariff rate under the April 2025 tariff policy (reduced from 24% for 90 days)")
  else if country = str "south korea" ∨ country = str "korea" then
    (0.25, true, str "Using fallback data: This product from South Korea is subject to a 25% tariff rate under the April 2025 tariff policy")
  else if country = str "taiwan" then
    (0.32, true, str "Using fallback data: This product from Taiwan is subject to a 32% tariff rate under the April 2025 tariff policy")
  else if country = str "european union" ∨ country = str "eu" ∨ country = str "germany" ∨
      country = str "france" ∨ country = str "italy" ∨ country = str "spain" then
    (0.20, true, str "Using fallback data: This product from the European Union is subject to a 20% tariff rate under the April 2025 tariff policy")
  else if country = str "vietnam" then
    (0.46, true, str "Using fallback data: This product from Vietnam is subject to a 46% tariff rate under the April 2025 tariff policy")
  else if country = str "india" then
    (0.40, true, str "Using fallback data: This product from India is subject to a 40% tariff rate under the April 2025 tariff policy")
  else if country = str "brazil" then
    (0.10, true, str "Using fallback data: This product from Brazil is subject to a 10% tariff rate under the April 2025 tariff policy")
  else if country = str "indonesia" then
    (0.32, true, str "Using fallback data: This product from Indonesia is subject to a 32% tariff rate under the April 2025 tariff policy")
  else if country = str "thailand" then
    (0.20, true, str "Using fallback data: This product from Thailand is subject to a 20% tariff rate under the April 2025 tariff policy")
  else if country = str "malaysia" then
    (0.25, true, str "Using fallback data: This product from Malaysia is subject to a 25% tariff rate under the April 2025 tariff policy")
  else if country = str "mexico" ∨ country = str "canada" then
    (0.25, true, str "Using fallback data: This product from " ++ country ++ str " is subject to a 25% tariff under the 2025 USMCA revisions")
  else if country = str "united kingdom" ∨ country = str "uk" then
    (0.10, true, str "Using fallback data: This product from the UK is subject to a 10% tariff rate under the April 2025 tariff policy")
  else if country = str "australia" then
    (0.10, true, str "Using fallback data: This product from Australia is subject to a 10% tariff rate under the April 2025 tariff policy")
  else if country = str "unknown" then
    (0.10, true, str "Using fallback data: Country of origin unknown, applying the minimum baseline 10% tariff")
  else
    (0.10, true, str "Using fallback data: Products from " ++ country ++ str " are subject to the universal 10% baseline tariff implemented in April 2025")

/-- `fallbackTariffCheck` of the API connector file: normalize the
country, look up the fallback rule chain, then decompose the price. -/
def fallbackTariffCheck (productData : ProductData) : FallbackResult :=
  let country := normalizeCountryName productData.countryOfOrigin
  let price := productData.price
  let r := fallbackRules country
  let d := decomposePercentage price r.1
  { isSubjectToTariff := r.2.1, tariffRate := r.1, preTariffPrice := d.1,
    tariffAmount := d.2, message := r.2.2, isFallback := true }

/-- `tariffCache.CACHE_DURATION`: 24 hours in milliseconds. -/
def CACHE_DURATION : ℤ := 24 * 60 * 60 * 1000

/-- The module-level `tariffCache` object: keyed store plus the single
shared timestamp. -/
structure TariffCache (α : Type) where
  data : List (JsStr × α)
  timestamp : ℤ

/-- JS property assignment on the cache store: overwrite or append. -/
def setKey {α : Type} : List (JsStr × α) → JsStr → α → List (JsStr × α)
  | [], k, v => [(k, v)]
  | (k', v') :: m, k, v => if k = k' then (k, v) :: m else (k', v') :: setKey m k v

/-- `hasCachedTariffData`: if the whole cache is past its TTL, empty the
store and move the timestamp to `now` before looking anything up;
otherwise report whether the key is present.  Returns the answer and
the possibly-reset cache state. -/
def hasCachedTariffData {α : Type} (cache : TariffCache α) (now : ℤ) (cacheKey : JsStr) :
    Bool × TariffCache α :=
  if now - cache.timestamp > CACHE_DURATION then
    (false, { data := [], timestamp := now })
  else
    ((Js.lookupTable cache.data cacheKey).isSome, cache)

/-- `cacheTariffData`: store under the key and refresh the shared
timestamp. -/
def cacheTariffData {α : Type} (cache : TariffCache α) (now : ℤ) (cacheKey : JsStr)
    (tariffData : α) : TariffCache α :=
  { data := setKey cache.data cacheKey tariffData, timestamp := now }

end Connector

namespace Content

/-- The ordered country rule chain of `fallbackCalculation` in
scripts/content.js (lines 249-375): given the lower-cased country and
category, the price and the postal-shipment inference, returns
(tariffRate, isSubjectToTariff, message). -/
def resolve (country category : JsStr) (price : ℚ) (isPostalShipment : Bool) :
    ℚ × Bool × JsStr :=
  if (includes country (str "china") || includes country (str "hong kong")) = true then
    if isPostalShipment = true then
      let flatFeeTariff : ℚ := 100
      let percentTariff : ℚ := price * 1.20
      if percentTariff > flatFeeTariff then
        (1.20, true, str "This product from China is subject to a 120% tariff rate as a postal shipment under the May 2025 trade policy")
      else
        let tariffRate := flatFeeTariff / price
        (tariffRate, true,
          str "This product from China is subject to a $100 flat fee as a postal shipment under the May 2025 trade policy (equivalent to a "
            ++ toFixed1 (tariffRate * 100) ++ str "% rate)")
    else
      (1.25, true, str "This product from China is subject to a total 125% tariff rate under the May 2025 trade policy (de minimis exemption removed)")
  else if includes country (str "mexico") = true then
    if (includes category (str "food") || includes category (str "produce") ||
        includes category (str "vegetable") || includes category (str "fruit")) = true then
      (0, false, str "This product appears to qualify for USMCA exemption (0% tariff)")
    else
      (0.25, true, str "This product from Mexico is subject to a 25% tariff on non-USMCA compliant goods")
  else if includes country (str "canada") = true then
    if (includes category (str "food") || includes category (str "produce") ||
        includes category (str "vegetable") || includes category (str "fruit")) = true then
      (0, false, str "This product appears to qualify for USMCA exemption (0% tariff)")
    else if (includes category (str "energy") || includes category (str "oil") ||
        includes category (str "gas") || includes category (str "potash")) = true then
      (0.10, true, str "This product from Canada is subject to a 10% tariff (energy/potash non-USMCA rate)")
    else
      (0.25, true, str "This product from Canada is subject to a 25% tariff on non-USMCA compliant goods")
  else if includes country (str "japan") = true then
    (0.10, true, str "This product from Japan is subject to a 10% tariff rate under the May 2025 trade policy")
  else if (includes country (str "germany") || includes country (str "european union") ||
      includes country (str "eu") || includes country (str "france") ||
      includes country (str "italy") || includes country (str "spain")) = true then
    (0.20, true, str "This product from the European Union is subject to a 20% tariff rate under the May 2025 trade policy")
  else if includes country (str "vietnam") = true then
    (0.46, true, str "This product from Vietnam is subject to a 46% tariff rate under the May 2025 trade policy")
  else if (includes country (str "south korea") || includes country (str "korea")) = true then
    (0.25, true, str "This product from South Korea is subject to a 25% tariff rate under the May 2025 trade policy")
  else if includes country (str "taiwan") = true then
    (0.32, true, str "This product from Taiwan is subject to a 32% tariff rate under the May 2025 trade policy")
  else if (includes country (str "united kingdom") || includes country (str "uk")) = true then
    (0.10, true, str "This product from the UK is subject to a 10% tariff rate under the May 2025 trade policy")
  else if includes country (str "india") = true then
    (0.40, true, str "This product from India is subject to a 40% tariff rate under the May 2025 trade policy")
  else if country = str "unknown" then
    if price < 50 ∧ (includes category (str "electronics") || includes category (str "home") ||
        includes category (str "light") || includes category (str "tool")) = true then
      (1.25, true, str "Based on the product type and price, this is likely from China and subject to a 125% tariff rate")
    else
      (0.10, true, str "Country of origin unknown, applying the minimum baseline 10% tariff")
  else
    (0.10, true, str "Products from " ++ country ++ str " are subject to the universal 10% baseline tariff implemented in May 2025")

/-- `fallbackCalculation` of scripts/content.js: lower-case the inputs,
infer the postal channel, run the rule chain and decompose the price
with the selected rate. -/
def fallbackCalculation (productData : ProductData) : FallbackResult :=
  let country := toLower productData.countryOfOrigin
  let price := productData.price
  let category := toLower productData.category
  let isPostalShipment :=
    decide (price < 100) && !includes category (str "electronics") &&
      !includes category (str "appliance")
  let r := resolve country category price isPostalShipment
  let d := decomposePercentage price r.1
  { isSubjectToTariff := r.2.1, tariffRate := r.1, preTariffPrice := d.1,
    tariffAmount := d.2, message := r.2.2, isFallback := true }

end Content

namespace Injection

/-- Result shape of `fallbackCalculation` in
scripts/content-injection.js.  The mutable locals of the source are the
fields here; the user-facing `message` string of this copy interpolates
a formatted price and is presentation-only, so it is not carried in the
embedding. -/
structure Result where
  isSubjectToTariff : Bool
  tariffRate : ℚ
  preTariffPrice : ℚ
  tariffAmount : ℚ
  isFallback : Bool
  isUsingFlatFee : Bool
  flatFeeAmount : ℚ
  specialPriceLogic : Bool

/-- The ordered country rule chain of `fallbackCalculation` in
scripts/content-injection.js (lines 318-464), before the final
percentage recomputation step: each branch records exactly the locals
the source assigns, all others keeping their defaults. -/
def resolve (country category : JsStr) (price : ℚ) (isPostalShipment : Bool) : Result :=
  if (includes country (str "china") || includes country (str "hong kong")) = true then
    if isPostalShipment = true then
      let percentTariffRate : ℚ := 1.20
      let flatFeeTariff : ℚ := 100
      let normalPreTariffPrice := price / (1 + percentTariffRate)
      let percentTariffAmount := price - normalPreTariffPrice
      if percentTariffAmount > flatFeeTariff then
        { isSubjectToTariff := true, tariffRate := percentTariffRate,
          preTariffPrice := normalPreTariffPrice, tariffAmount := percentTariffAmount,
          isFallback := true, isUsingFlatFee := false, flatFeeAmount := 0,
          specialPriceLogic := false }
      else if flatFeeTariff > price then
        let tariffAmount := price * 0.7
        { isSubjectToTariff := true, tariffRate := 0,
          preTariffPrice := price - tariffAmount, tariffAmount := tariffAmount,
          isFallback := true, isUsingFlatFee := true, flatFeeAmount := tariffAmount,
          specialPriceLogic := true }
      else
        { isSubjectToTariff := true, tariffRate := 0,
          preTariffPrice := price - flatFeeTariff, tariffAmount := flatFeeTariff,
          isFallback := true, isUsingFlatFee := true, flatFeeAmount := flatFeeTariff,
          specialPriceLogic := false }
    else
      let tariffRate : ℚ := 1.25
      { isSubjectToTariff := true, tariffRate := tariffRate,
        preTariffPrice := price / (1 + tariffRate),
        tariffAmount := price - price / (1 + tariffRate),
        isFallback := true, isUsingFlatFee := false, flatFeeAmount := 0,
        specialPriceLogic := false }
  else if includes country (str "mexico") = true then
    if (includes category (str "food") || includes category (str "produce") ||
        includes category (str "vegetable") || includes category (str "fruit")) = true then
      { isSubjectToTariff := false, tariffRate := 0, preTariffPrice := 0, tariffAmount := 0,
        isFallback := true, isUsingFlatFee := false, flatFeeAmount := 0,
        specialPriceLogic := false }
    else
      { isSubjectToTariff := true, tariffRate := 0.25, preTariffPrice := 0, tariffAmount := 0,
        isFallback := true, isUsingFlatFee := false, flatFeeAmount := 0,
        specialPriceLogic := false }
  else if includes country (str "canada") = true then
    if (includes category (str "food") || includes category (str "produce") ||
        includes category (str "vegetable") || includes category (str "fruit")) = true then
      { isSubjectToTariff := false, tariffRate := 0, preTariffPrice := 0, tariffAmount := 0,
        isFallback := true, isUsingFlatFee := false, flatFeeAmount := 0,
        specialPriceLogic := false }
    else if (includes category (str "energy") || includes category (str "oil") ||
        includes category (str "gas") || includes category (str "potash")) = true then
      { isSubjectToTariff := true, tariffRate := 0.10, preTariffPrice := 0, tariffAmount := 0,
        isFallback := true, isUsingFlatFee := false, flatFeeAmount := 0,
        specialPriceLogic := false }
    else
      { isSubjectToTariff := true, tariffRate := 0.25, preTariffPrice := 0, tariffAmount := 0,
        isFallback := true, isUsingFlatFee := false, flatFeeAmount := 0,
        specialPriceLogic := false }
  else if includes country (str "japan") = true then
    { isSubjectToTariff := true, tariffRate := 0.10, preTariffPrice := 0, tariffAmount := 0,
      isFallback := true, isUsingFlatFee := false, flatFeeAmount := 0,
      specialPriceLogic := false }
  else if (includes country (str "germany") || includes country (str "european union") ||
      includes country (str "eu") || includes country (str "france") ||
      includes country (str "italy") || includes country (str "spain")) = true then
    { isSubjectToTariff := true, tariffRate := 0.20, preTariffPrice := 0, tariffAmount := 0,
      isFallback := true, isUsingFlatFee := false, flatFeeAmount := 0,
      specialPriceLogic := false }
  else if includes country (str "vietnam") = true then
    { isSubjectToTariff := true, tariffRate := 0.46, preTariffPrice := 0, tariffAmount := 0,
      isFallback := true, isUsingFlatFee := false, flatFeeAmount := 0,
      specialPriceLogic := false }
  else if (includes country (str "south korea") || includes country (str "korea")) = true then
    { isSubjectToTariff := true, tariffRate := 0.25, preTariffPrice := 0, tariffAmount := 0,
      isFallback := true, isUsingFlatFee := false, flatFeeAmount := 0,
      specialPriceLogic := false }
  else if includes country (str "taiwan") = true then
    { isSubjectToTariff := true, tariffRate := 0.32, preTariffPrice := 0, tariffAmount := 0,
      isFallback := true, isUsingFlatFee := false, flatFeeAmount := 0,
      specialPriceLogic := false }
  else if (includes country (str "united kingdom") || includes country (str "uk")) = true then
    { isSubjectToTariff := true, tariffRate := 0.10, preTariffPrice := 0, tariffAmount := 0,
      isFallback := true, isUsingFlatFee := false, flatFeeAmount := 0,
      specialPriceLogic := false }
  else if includes country (str "india") = true then
    { isSubjectToTariff := true, tariffRate := 0.40, preTariffPrice := 0, tariffAmount := 0,
      isFallback := true, isUsingFlatFee := false, flatFeeAmount := 0,
      specialPriceLogic := false }
  else if country = str "unknown" then
    { isSubjectToTariff := true, tariffRate := 0.10, preTariffPrice := 0, tariffAmount := 0,
      isFallback := true, isUsingFlatFee := false, flatFeeAmount := 0,
      specialPriceLogic := false }
  else
    { isSubjectToTariff := true, tariffRate := 0.10, preTariffPrice := 0, tariffAmount := 0,
      isFallback := true, isUsingFlatFee := false, flatFeeAmount := 0,
      specialPriceLogic := false }

/-- `fallbackCalculation` of scripts/content-injection.js: lower-case
the inputs, infer the postal channel, run the rule chain, then for the
percentage-only branches (no flat fee used and no amount computed yet)
recompute the decomposition from the selected rate. -/
def fallbackCalculation (productData : ProductData) : Result :=
  let country := toLower productData.countryOfOrigin
  let price := productData.price
  let category := toLower productData.category
  let isPostalShipment :=
    decide (price < 100) && !includes category (str "electronics") &&
      !includes category (str "appliance")
  let r := resolve country category price isPostalShipment
  if (!r.isUsingFlatFee && decide (r.tariffAmount = 0)) = true then
    { r with preTariffPrice := price / (1 + r.tariffRate),
             tariffAmount := price - price / (1 + r.tariffRate) }
  else r

end Injection

/-! ## Supporting lemmas -/

namespace Js

theorem lowerCh_idem (c : Nat) : lowerCh (lowerCh c) = lowerCh c := by
  by_cases h : 65 ≤ c ∧ c ≤ 90
  · simp only [lowerCh, if_pos h]
    rw [if_neg (by omega)]
  · simp only [lowerCh, if_neg h]

theorem toLower_fixed_of_mem (s : JsStr) (h : ∀ c ∈ s, lowerCh c = c) :
    toLower s = s := by
  induction s with
  | nil => rfl
  | cons c s ih =>
    simp only [toLower, List.map_cons] at *
    rw [h c (by simp), ih fun x hx => h x (by simp [hx])]

theorem lowerCh_fixed_of_mem_toLower (s : JsStr) (c : Nat) (h : c ∈ toLower s) :
    lowerCh c = c := by
  simp only [toLower, List.mem_map] at h
  obtain ⟨a, _, rfl⟩ := h
  exact lowerCh_idem a

theorem dropWhile_self (p : Nat → Bool) (l : List Nat) :
    (l.dropWhile p).dropWhile p = l.dropWhile p := by
  cases h : l.dropWhile p with
  | nil => rfl
  | cons c t =>
    have hc : p c = false := by
      have := List.head_dropWhile_not p l (by simp [h])
      simpa [h] using this
    simp [List.dropWhile_cons, hc]

theorem exists_append_dropWhile (p : Nat → Bool) (l : List Nat) :
    ∃ u, l = u ++ l.dropWhile p := by
  induction l with
  | nil => exact ⟨[], rfl⟩
  | cons a l ih =>
    by_cases h : p a
    · obtain ⟨u, hu⟩ := ih
      exact ⟨a :: u, by simp [List.dropWhile_cons, h]; exact hu⟩
    · exact ⟨[], by simp [List.dropWhile_cons, h]⟩

theorem dropWhile_head_false (p : Nat → Bool) (l : List Nat) (c : Nat) (t : List Nat)
    (h : l.dropWhile p = c :: t) : p c = false := by
  have := List.head_dropWhile_not p l (by simp [h])
  simpa [h] using this

theorem length_dropWhile_le (p : Nat → Bool) (l : List Nat) :
    (l.dropWhile p).length ≤ l.length := by
  induction l with
  | nil => simp
  | cons a l ih =>
    by_cases h : p a
    · rw [List.dropWhile_cons_of_pos h, List.length_cons]; omega
    · rw [List.dropWhile_cons_of_neg h]

theorem mem_of_mem_trim (s : JsStr) (c : Nat) (h : c ∈ trim s) : c ∈ s := by
  simp only [trim, trimL, List.mem_reverse] at h
  obtain ⟨u, hu⟩ := exists_append_dropWhile (fun c => isWs c) (s.dropWhile fun c => isWs c).reverse
  have h1 : c ∈ (s.dropWhile fun c => isWs c).reverse := by
    rw [hu]; exact List.mem_append_right u h
  rw [List.mem_reverse] at h1
  obtain ⟨v, hv⟩ := exists_append_dropWhile (fun c => isWs c) s
  rw [hv]
  exact List.mem_append_right v h1

theorem trimL_trim (s : JsStr) : trimL (trim s) = trim s := by
  unfold trim
  set t := trimL s with ht
  obtain ⟨u, hu⟩ := exists_append_dropWhile (fun c => isWs c) t.reverse
  cases hw : (t.reverse.dropWhile fun c => isWs c).reverse with
  | nil => simp [trimL, hw]
  | cons c w =>
    have htc : t = c :: (w ++ u.reverse) := by
      have : t = (t.reverse.dropWhile fun c => isWs c).reverse ++ u.reverse := by
        have := congrArg List.reverse hu
        simpa [List.reverse_append] using this
      rw [hw] at this
      simpa using this
    have hc : isWs c = false := by
      have h2 : trimL t = t := by
        rw [ht]; exact dropWhile_self _ s
      rw [htc] at h2
      by_contra hcc
      rw [Bool.not_eq_false] at hcc
      simp only [trimL, List.dropWhile_cons, hcc, if_true] at h2
      have hlen := congrArg List.length h2
      rw [List.length_cons] at hlen
      have hle := length_dropWhile_le (fun c => isWs c) (w ++ u.reverse)
      omega
    simp [trimL, List.dropWhile_cons, hc]

theorem trim_idem (s : JsStr) : trim (trim s) = trim s := by
  have h1 : trim (trim s) = ((trimL (trim s)).reverse.dropWhile fun c => isWs c).reverse := rfl
  rw [h1, trimL_trim]
  unfold trim
  rw [List.reverse_reverse, dropWhile_self]

end Js

namespace Connector

theorem lookupTable_mem {α : Type} (m : List (JsStr × α)) (k : JsStr) (v : α)
    (h : Js.lookupTable m k = some v) : (k, v) ∈ m := by
  induction m with
  | nil => simp [Js.lookupTable] at h
  | cons p m ih =>
    obtain ⟨k', v'⟩ := p
    simp only [Js.lookupTable] at h
    split at h
    · rename_i heq
      subst heq
      injection h with hv
      subst hv
      exact List.mem_cons_self _ _
    · exact List.mem_cons_of_mem _ (ih h)

theorem countryMap_values_fixed :
    ∀ p ∈ countryMap, normalizeCountryName p.2 = p.2 := by decide

theorem normalizeCountryName_fixes_normalized (n : JsStr)
    (hlow : Js.toLower n = n) (htrim : Js.trim n = n)
    (hmiss : Js.lookupTable countryMap n = none) :
    normalizeCountryName n = n := by
  by_cases hn : n = []
  · simp [normalizeCountryName, hn]
  · simp [normalizeCountryName, hn, hlow, htrim, hmiss]

end Connector

/-! ## Claims -/

/-- C1: for every observed price ≥ 0 and every percentage policy with
rate ≥ 0, the decomposition `preTariffPrice = price / (1 + rate)`,
`tariffAmount = price - preTariffPrice` (content.js lines 377-379 and
the API connector lines 782-784) satisfies the exact algebraic
identities `preTariffPrice * (1 + rate) = price` and
`tariffAmount + preTariffPrice = price`. -/
theorem decompose_percentage_inverts (price rate : ℚ) (_hprice : 0 ≤ price) (hrate : 0 ≤ rate) :
    (decomposePercentage price rate).1 * (1 + rate) = price ∧
    (decomposePercentage price rate).2 + (decomposePercentage price rate).1 = price := by
  have h : (1 : ℚ) + rate ≠ 0 := by positivity
  constructor
  · simp only [decomposePercentage]
    exact div_mul_cancel₀ price h
  · simp only [decomposePercentage]
    ring

/-- Witness for C1 at price 11, rate 1/10. -/
theorem decompose_percentage_inverts_witness :
    (decomposePercentage 11 (1 / 10)).1 * (1 + 1 / 10) = 11 ∧
    (decomposePercentage 11 (1 / 10)).2 + (decomposePercentage 11 (1 / 10)).1 = 11 :=
  decompose_percentage_inverts 11 (1 / 10) (by norm_num) (by norm_num)

/-- C6 counterexample: the claim sends the empty input to "unknown",
but `normalizeCountryName` returns the empty string for the empty
(falsy) input. -/
theorem normalize_country_empty_not_unknown :
    Connector.normalizeCountryName (Js.str "") ≠ Js.str "unknown" := by decide

/-- C6 (amended): `normalizeCountryName` is total and never fails: the
empty input maps to the empty string (not "unknown"), and every other
input is lower-cased, trimmed and resolved through the alias table,
falling back to the trimmed lower-cased input itself. -/
theorem normalize_country_total_spec (x : JsStr) :
    (x = [] → Connector.normalizeCountryName x = []) ∧
    (∀ v, x ≠ [] →
      Js.lookupTable Connector.countryMap (Js.trim (Js.toLower x)) = some v →
      Connector.normalizeCountryName x = v) ∧
    (x ≠ [] →
      Js.lookupTable Connector.countryMap (Js.trim (Js.toLower x)) = none →
      Connector.normalizeCountryName x = Js.trim (Js.toLower x)) := by
  refine ⟨fun h => by simp [Connector.normalizeCountryName, h], ?_, ?_⟩
  · intro v hx hl
    simp [Connector.normalizeCountryName, hx, hl]
  · intro hx hl
    simp [Connector.normalizeCountryName, hx, hl]

/-- Witness for C6 (amended) on the alias "cn". -/
theorem normalize_country_total_spec_witness :
    Connector.normalizeCountryName (Js.str "cn") = Js.str "china" :=
  (normalize_country_total_spec (Js.str "cn")).2.1 (Js.str "china") (by decide) (by decide)

/-- C7: country normalization is idempotent. -/
theorem normalize_country_idempotent (x : JsStr) :
    Connector.normalizeCountryName (Connector.normalizeCountryName x) =
      Connector.normalizeCountryName x := by
  by_cases hx : x = []
  · subst hx; rfl
  · have hnx : Connector.normalizeCountryName x =
        match Js.lookupTable Connector.countryMap (Js.trim (Js.toLower x)) with
        | some v => v
        | none => Js.trim (Js.toLower x) := by
      simp [Connector.normalizeCountryName, hx]
    cases hl : Js.lookupTable Connector.countryMap (Js.trim (Js.toLower x)) with
    | some v =>
      rw [hnx]
      simp only [hl]
      exact Connector.countryMap_values_fixed _ (Connector.lookupTable_mem _ _ _ hl)
    | none =>
      rw [hnx]
      simp only [hl]
      have hlow : Js.toLower (Js.trim (Js.toLower x)) = Js.trim (Js.toLower x) := by
        apply Js.toLower_fixed_of_mem
        intro c hc
        exact Js.lowerCh_fixed_of_mem_toLower x c (Js.mem_of_mem_trim (Js.toLower x) c hc)
      exact Connector.normalizeCountryName_fixes_normalized _ hlow
        (Js.trim_idem (Js.toLower x)) hl

/-- C8: on every cache read, crossing the TTL atomically clears the
whole store and moves the timestamp to `now` before the key is looked
up (so nothing stored before the reset can be returned), while inside
the TTL the store is left untouched — there is no per-key eviction. -/
theorem cache_get_ttl_reset {α : Type} (cache : Connector.TariffCache α) (now : ℤ)
    (key : JsStr) :
    (now - cache.timestamp > Connector.CACHE_DURATION →
      Connector.hasCachedTariffData cache now key =
        (false, { data := [], timestamp := now }) ∧
      ∀ k, Js.lookupTable (Connector.hasCachedTariffData cache now key).2.data k = none) ∧
    (¬ now - cache.timestamp > Connector.CACHE_DURATION →
      Connector.hasCachedTariffData cache now key =
        ((Js.lookupTable cache.data key).isSome, cache)) := by
  constructor
  · intro h
    have he : Connector.hasCachedTariffData cache now key =
        (false, { data := [], timestamp := now }) := by
      simp only [Connector.hasCachedTariffData, if_pos h]
    exact ⟨he, fun k => by rw [he]; rfl⟩
  · intro h
    simp only [Connector.hasCachedTariffData, if_neg h]

/-- Witness for C8: a cache written at time 0 and read one millisecond
past the 24-hour TTL comes back emptied, with the key reported absent. -/
theorem cache_get_ttl_reset_witness :
    Connector.hasCachedTariffData
        (Connector.TariffCache.mk [(Js.str "china-85", (1 : ℚ))] 0) 86400001
        (Js.str "china-85") =
      (false, Connector.TariffCache.mk [] 86400001) :=
  ((cache_get_ttl_reset (Connector.TariffCache.mk [(Js.str "china-85", (1 : ℚ))] 0)
      86400001 (Js.str "china-85")).1 (by decide)).1

/-- C9: the scenario country "Mexico", category "produce", price 50
resolves to the exempt policy in both calculator copies: zero tariff
amount, pre-tariff price equal to the observed price, rate 0 and not
subject to tariff. -/
theorem mexico_produce_exempt :
    (Content.fallbackCalculation ⟨Js.str "Mexico", 50, Js.str "produce"⟩).tariffAmount = 0 ∧
    (Content.fallbackCalculation ⟨Js.str "Mexico", 50, Js.str "produce"⟩).preTariffPrice = 50 ∧
    (Content.fallbackCalculation ⟨Js.str "Mexico", 50, Js.str "produce"⟩).isSubjectToTariff
      = false ∧
    (Content.fallbackCalculation ⟨Js.str "Mexico", 50, Js.str "produce"⟩).tariffRate = 0 ∧
    (Injection.fallbackCalculation ⟨Js.str "Mexico", 50, Js.str "produce"⟩).tariffAmount = 0 ∧
    (Injection.fallbackCalculation ⟨Js.str "Mexico", 50, Js.str "produce"⟩).preTariffPrice
      = 50 ∧
    (Injection.fallbackCalculation ⟨Js.str "Mexico", 50, Js.str "produce"⟩).isSubjectToTariff
      = false := by
  refine ⟨?_, ?_, ?_, ?_, ?_, ?_, ?_⟩ <;>
    simp +decide only [Content.fallbackCalculation, Content.resolve,
      Injection.fallbackCalculation, Injection.resolve, decomposePercentage] <;>
    norm_num

/-- C4 counterexample: for the unknown-origin input price 30, category
"electronics", the content-script resolver does not apply the 10%
baseline: its likely-China sub-rule fires and returns a 125% rate. -/
theorem content_unknown_not_baseline :
    (Content.fallbackCalculation ⟨Js.str "Unknown", 30, Js.str "electronics"⟩).tariffRate
      ≠ 0.10 := by
  norm_num +decide [Content.fallbackCalculation, Content.resolve, decomposePercentage]

/-- C4 (amended): for unknown-origin products the resolvers apply the
universal 10% baseline percentage policy with a rationale mentioning
the unknown origin — except that the content-script copy first applies
a likely-China 125% sub-rule when the price is under 50 and the
category mentions electronics, home, light or tool; the popup-injected
copy applies the baseline unconditionally.  Country "Unknown" at price
30 with an empty category gets the baseline. -/
theorem unknown_origin_baseline (c cat : JsStr) (price : ℚ)
    (hc : Js.toLower c = Js.str "unknown")
    (h : ¬(price < 50 ∧ (Js.includes (Js.toLower cat) (Js.str "electronics") ||
        Js.includes (Js.toLower cat) (Js.str "home") ||
        Js.includes (Js.toLower cat) (Js.str "light") ||
        Js.includes (Js.toLower cat) (Js.str "tool")) = true)) :
    (Content.fallbackCalculation ⟨c, price, cat⟩).tariffRate = 0.10 ∧
    (Content.fallbackCalculation ⟨c, price, cat⟩).isSubjectToTariff = true ∧
    Js.includes (Content.fallbackCalculation ⟨c, price, cat⟩).message (Js.str "unknown")
      = true ∧
    (Injection.fallbackCalculation ⟨c, price, cat⟩).tariffRate = 0.10 ∧
    (Injection.fallbackCalculation ⟨c, price, cat⟩).isSubjectToTariff = true := by
  simp only [Bool.or_eq_true] at h
  refine ⟨?_, ?_, ?_, ?_, ?_⟩ <;>
    norm_num +decide [Content.fallbackCalculation, Content.resolve,
      Injection.fallbackCalculation, Injection.resolve, decomposePercentage, hc, h]

/-- Witness for C4 (amended): the spec scenario country "Unknown",
price 30, empty category. -/
theorem unknown_origin_baseline_witness :
    (Content.fallbackCalculation ⟨Js.str "Unknown", 30, Js.str ""⟩).tariffRate = 0.10 ∧
    (Content.fallbackCalculation ⟨Js.str "Unknown", 30, Js.str ""⟩).isSubjectToTariff
      = true ∧
    Js.includes (Content.fallbackCalculation ⟨Js.str "Unknown", 30, Js.str ""⟩).message
      (Js.str "unknown") = true ∧
    (Injection.fallbackCalculation ⟨Js.str "Unknown", 30, Js.str ""⟩).tariffRate = 0.10 ∧
    (Injection.fallbackCalculation ⟨Js.str "Unknown", 30, Js.str ""⟩).isSubjectToTariff
      = true :=
  unknown_origin_baseline (Js.str "Unknown") (Js.str "") 30 (by decide)
    (fun hcon => absurd hcon.2 (by decide))

/-- C5: the two copies of the country rate logic disagree.  For China
the content script charges 125% on a non-postal product where the API
connector's table charges 54%, and at a postal price point (price 50,
category "toys") the content script applies the $100 flat-fee schedule
(an equivalent rate of 200%) while the connector, which has no postal
fee schedule at all, still charges 54%. -/
theorem rate_tables_disagree :
    (Content.fallbackCalculation ⟨Js.str "China", 200, Js.str "electronics"⟩).tariffRate ≠
      (Connector.adjustTariffForCountry
        (Connector.getBaseTariffRate (Connector.getCategoryHTSCode (Js.str "electronics")))
        (Connector.normalizeCountryName (Js.str "China"))
        (Connector.getCategoryHTSCode (Js.str "electronics"))).1 ∧
    (Content.fallbackCalculation ⟨Js.str "China", 50, Js.str "toys"⟩).tariffRate ≠
      (Connector.adjustTariffForCountry
        (Connector.getBaseTariffRate (Connector.getCategoryHTSCode (Js.str "toys")))
        (Connector.normalizeCountryName (Js.str "China"))
        (Connector.getCategoryHTSCode (Js.str "toys"))).1 := by
  constructor <;>
    norm_num +decide [Content.fallbackCalculation, Content.resolve,
      Connector.adjustTariffForCountry, decomposePercentage]

/-- C3 counterexample: at country "China", price 50, category "toys"
the content-script copy selects the $100 flat fee (converted to the
equivalent rate 100/50) with the fee at least the price, yet its
decomposition is not the 70% split — and its result carries no
approximation flag at all. -/
theorem content_flatfee_no_approximation :
    (Content.fallbackCalculation ⟨Js.str "China", 50, Js.str "toys"⟩).tariffRate
      = 100 / 50 ∧
    (Content.fallbackCalculation ⟨Js.str "China", 50, Js.str "toys"⟩).tariffAmount
      ≠ 0.7 * 50 := by
  constructor <;>
    norm_num +decide [Content.fallbackCalculation, Content.resolve, decomposePercentage]

/-- In the China-postal branch of scripts/content.js, the selected rate
is 120% when the 120% percentage tariff beats the $100 flat fee. -/
theorem content_resolve_china_postal_percent (country category : JsStr) (price : ℚ)
    (hc : Js.includes country (Js.str "china") = true) (h12 : price * 1.20 > 100) :
    (Content.resolve country category price true).1 = 1.20 := by
  simp [Content.resolve, hc, h12]

/-- In the China-postal branch of scripts/content.js, the selected rate
is the fee-equivalent rate 100/price otherwise. -/
theorem content_resolve_china_postal_flat (country category : JsStr) (price : ℚ)
    (hc : Js.includes country (Js.str "china") = true) (h12 : ¬(price * 1.20 > 100)) :
    (Content.resolve country category price true).1 = 100 / price := by
  simp [Content.resolve, hc, h12]

/-- Projections of `Content.fallbackCalculation` through the
postal-shipment inference. -/
theorem content_fallback_rate_amount (pd : ProductData)
    (hpost : (decide (pd.price < 100) &&
      !Js.includes (Js.toLower pd.category) (Js.str "electronics") &&
      !Js.includes (Js.toLower pd.category) (Js.str "appliance")) = true) :
    (Content.fallbackCalculation pd).tariffRate =
      (Content.resolve (Js.toLower pd.countryOfOrigin) (Js.toLower pd.category)
        pd.price true).1 ∧
    (Content.fallbackCalculation pd).tariffAmount =
      (decomposePercentage pd.price
        (Content.resolve (Js.toLower pd.countryOfOrigin) (Js.toLower pd.category)
          pd.price true).1).2 := by
  constructor <;> simp only [Content.fallbackCalculation, hpost]

/-- C2: for every China-origin product on the inferred postal channel
(positive price under 100, category mentioning neither electronics nor
appliance), the content-script resolver selects 120% exactly when the
120% percentage tariff exceeds the $100 flat fee, otherwise the
fee-equivalent rate 100/price — and the resulting decomposed tariff
amount is the larger of the two candidate decompositions at that price
point. -/
theorem content_china_postal_selects_larger (pd : ProductData)
    (hc : Js.includes (Js.toLower pd.countryOfOrigin) (Js.str "china") = true)
    (h0 : 0 < pd.price) (hp : pd.price < 100)
    (he : Js.includes (Js.toLower pd.category) (Js.str "electronics") = false)
    (ha : Js.includes (Js.toLower pd.category) (Js.str "appliance") = false) :
    (Content.fallbackCalculation pd).tariffRate =
      (if pd.price * 1.20 > 100 then (1.20 : ℚ) else 100 / pd.price) ∧
    (Content.fallbackCalculation pd).tariffAmount =
      max (decomposePercentage pd.price 1.20).2
        (decomposePercentage pd.price (100 / pd.price)).2 := by
  have hpost : (decide (pd.price < 100) &&
      !Js.includes (Js.toLower pd.category) (Js.str "electronics") &&
      !Js.includes (Js.toLower pd.category) (Js.str "appliance")) = true := by
    rw [he, ha, decide_eq_true hp]
    rfl
  obtain ⟨hr, ham⟩ := content_fallback_rate_amount pd hpost
  have e1 : (decomposePercentage pd.price 1.20).2 = 6 / 11 * pd.price := by
    simp only [decomposePercentage]
    rw [show (1 : ℚ) + 1.20 = 11 / 5 by norm_num]
    field_simp
    ring
  have hpne : pd.price ≠ 0 := ne_of_gt h0
  have hp100 : (0 : ℚ) < pd.price + 100 := by linarith
  have e2 : (decomposePercentage pd.price (100 / pd.price)).2
      = 100 * pd.price / (pd.price + 100) := by
    simp only [decomposePercentage]
    rw [show (1 : ℚ) + 100 / pd.price = (pd.price + 100) / pd.price by field_simp,
      div_div_eq_mul_div]
    field_simp
    ring
  by_cases h12 : pd.price * 1.20 > 100
  · have hrr := content_resolve_china_postal_percent (Js.toLower pd.countryOfOrigin)
      (Js.toLower pd.category) pd.price hc h12
    have hle : (decomposePercentage pd.price (100 / pd.price)).2
        ≤ (decomposePercentage pd.price 1.20).2 := by
      rw [e1, e2, div_le_iff₀ hp100]
      nlinarith [h0, h12]
    exact ⟨by rw [hr, hrr, if_pos h12], by rw [ham, hrr, max_eq_left hle]⟩
  · have hrr := content_resolve_china_postal_flat (Js.toLower pd.countryOfOrigin)
      (Js.toLower pd.category) pd.price hc h12
    have h12' : pd.price * 1.20 ≤ 100 := not_lt.mp h12
    have hge : (decomposePercentage pd.price 1.20).2
        ≤ (decomposePercentage pd.price (100 / pd.price)).2 := by
      rw [e1, e2, le_div_iff₀ hp100]
      nlinarith [h0, h12']
    exact ⟨by rw [hr, hrr, if_neg h12], by rw [ham, hrr, max_eq_right hge]⟩

/-- Witness for C2 at China, price 90, category "toys" (the percentage
side of the comparison wins there). -/
theorem content_china_postal_selects_larger_witness :
    (Content.fallbackCalculation ⟨Js.str "China", 90, Js.str "toys"⟩).tariffRate =
      (if (90 : ℚ) * 1.20 > 100 then (1.20 : ℚ) else 100 / 90) ∧
    (Content.fallbackCalculation ⟨Js.str "China", 90, Js.str "toys"⟩).tariffAmount =
      max (decomposePercentage 90 1.20).2 (decomposePercentage 90 (100 / 90)).2 :=
  content_china_postal_selects_larger ⟨Js.str "China", 90, Js.str "toys"⟩ (by decide)
    (by norm_num) (by norm_num) (by decide) (by decide)

/-- The China-postal branch of scripts/content-injection.js always
takes the special approximation path: the decomposed 120% amount
(6/11 of the price) cannot beat the $100 fee below price 100, and the
fee always exceeds such a price. -/
theorem injection_china_postal_special (pd : ProductData)
    (hc : Js.includes (Js.toLower pd.countryOfOrigin) (Js.str "china") = true)
    (hp : pd.price < 100)
    (he : Js.includes (Js.toLower pd.category) (Js.str "electronics") = false)
    (ha : Js.includes (Js.toLower pd.category) (Js.str "appliance") = false) :
    Injection.fallbackCalculation pd =
      { isSubjectToTariff := true, tariffRate := 0,
        preTariffPrice := pd.price - pd.price * 0.7,
        tariffAmount := pd.price * 0.7, isFallback := true,
        isUsingFlatFee := true, flatFeeAmount := pd.price * 0.7,
        specialPriceLogic := true } := by
  have hpost : (decide (pd.price < 100) &&
      !Js.includes (Js.toLower pd.category) (Js.str "electronics") &&
      !Js.includes (Js.toLower pd.category) (Js.str "appliance")) = true := by
    rw [he, ha, decide_eq_true hp]
    rfl
  have hperc : ¬(pd.price - pd.price / (1 + 1.20) > (100 : ℚ)) := by
    have h6 : pd.price - pd.price / (1 + (1.20 : ℚ)) = 6 / 11 * pd.price := by
      rw [show (1 : ℚ) + 1.20 = 11 / 5 by norm_num]
      field_simp
      ring
    rw [h6]
    push_neg
    linarith
  have hflat : (100 : ℚ) > pd.price := hp
  simp [Injection.fallbackCalculation, Injection.resolve, hpost, hc, hperc, hflat, he, ha]

/-- C10: in the popup-injected implementation, every China-origin
postal-channel input (0 ≤ price < 100, category without electronics or
appliance) lands on the special approximation path: the flag
`specialPriceLogic` is set, the tariff amount is 70% of the price and
the pre-tariff price the remaining 30%; the pure-percentage and the
plain flat-fee-subtraction branches are unreachable there. -/
theorem injection_china_postal_approximation (pd : ProductData)
    (hc : Js.includes (Js.toLower pd.countryOfOrigin) (Js.str "china") = true)
    (_h0 : 0 ≤ pd.price) (hp : pd.price < 100)
    (he : Js.includes (Js.toLower pd.category) (Js.str "electronics") = false)
    (ha : Js.includes (Js.toLower pd.category) (Js.str "appliance") = false) :
    (Injection.fallbackCalculation pd).specialPriceLogic = true ∧
    (Injection.fallbackCalculation pd).isUsingFlatFee = true ∧
    (Injection.fallbackCalculation pd).tariffAmount = 7 / 10 * pd.price ∧
    (Injection.fallbackCalculation pd).preTariffPrice = 3 / 10 * pd.price := by
  rw [injection_china_postal_special pd hc hp he ha]
  refine ⟨rfl, rfl, ?_, ?_⟩
  · show pd.price * 0.7 = 7 / 10 * pd.price
    rw [show (0.7 : ℚ) = 7 / 10 by norm_num]
    ring
  · show pd.price - pd.price * 0.7 = 3 / 10 * pd.price
    rw [show (0.7 : ℚ) = 7 / 10 by norm_num]
    ring

/-- Witness for C10 at country "china", price 40, category "toys". -/
theorem injection_china_postal_approximation_witness :
    (Injection.fallbackCalculation ⟨Js.str "china", 40, Js.str "toys"⟩).specialPriceLogic
      = true ∧
    (Injection.fallbackCalculation ⟨Js.str "china", 40, Js.str "toys"⟩).isUsingFlatFee
      = true ∧
    (Injection.fallbackCalculation ⟨Js.str "china", 40, Js.str "toys"⟩).tariffAmount
      = 7 / 10 * 40 ∧
    (Injection.fallbackCalculation ⟨Js.str "china", 40, Js.str "toys"⟩).preTariffPrice
      = 3 / 10 * 40 :=
  injection_china_postal_approximation ⟨Js.str "china", 40, Js.str "toys"⟩ (by decide)
    (by norm_num) (by norm_num) (by decide) (by decide)

/-- C3 (amended): in the popup-injected implementation, whenever the
selected policy is the $100 flat fee and the fee is at least the
observed price (always the case on the postal channel), the
decomposition assigns 70% of the observed price as the tariff amount
and the remainder as the pre-tariff price, and the approximation flag
`specialPriceLogic` is surfaced; the content-script copy instead
converts the fee to an equivalent percentage rate and exposes no
approximation flag. -/
theorem injection_flatfee_degenerate_approximate (pd : ProductData)
    (hc : Js.includes (Js.toLower pd.countryOfOrigin) (Js.str "china") = true)
    (hp : pd.price < 100)
    (he : Js.includes (Js.toLower pd.category) (Js.str "electronics") = false)
    (ha : Js.includes (Js.toLower pd.category) (Js.str "appliance") = false)
    (_hfee : (100 : ℚ) ≥ pd.price) :
    (Injection.fallbackCalculation pd).specialPriceLogic = true ∧
    (Injection.fallbackCalculation pd).tariffAmount = 0.7 * pd.price ∧
    (Injection.fallbackCalculation pd).preTariffPrice = pd.price - 0.7 * pd.price := by
  rw [injection_china_postal_special pd hc hp he ha]
  refine ⟨rfl, ?_, ?_⟩
  · show pd.price * 0.7 = 0.7 * pd.price
    ring
  · show pd.price - pd.price * 0.7 = pd.price - 0.7 * pd.price
    ring

/-- Witness for C3 (amended) at country "China", price 50, category
"toys". -/
theorem injection_flatfee_degenerate_approximate_witness :
    (Injection.fallbackCalculation ⟨Js.str "China", 50, Js.str "toys"⟩).specialPriceLogic
      = true ∧
    (Injection.fallbackCalculation ⟨Js.str "China", 50, Js.str "toys"⟩).tariffAmount
      = 0.7 * 50 ∧
    (Injection.fallbackCalculation ⟨Js.str "China", 50, Js.str "toys"⟩).preTariffPrice
      = 50 - 0.7 * 50 :=
  injection_flatfee_degenerate_approximate ⟨Js.str "China", 50, Js.str "toys"⟩ (by decide)
    (by norm_num) (by decide) (by decide) (by norm_num)
